import Mathlib

/-!
Verification development for the safesip SIP client.

The definitions below are a shallow embedding of the JavaScript sources:
`SipRequestBuilder` (src/SipTransport.js, second class), `SipClient`
(src/SipClient.js) and the UDP transport close path (src/SipTransport.js).
JavaScript strings are modelled as Lean `String`; `s.length` is the UTF-16
code-unit count `utf16Len`, while the UDP transport encodes outbound
messages as UTF-8 (`Buffer.from(msg, 'utf-8')`), whose byte count is
`utf8Len`.  Randomness (`Math.random`, `Date.now`) is modelled by an
explicit `Fresh` record of the values drawn during one send.  The MD5
function from node's `crypto` is an external primitive and is modelled as
an uninterpreted function parameter `md5 : String → String`.
-/

namespace SafeSip

/-! ### Character and string helpers mirroring the JavaScript primitives -/

/-- ASCII lower-casing of a character list, as `toLowerCase` acts on the
ASCII header data this client manipulates. -/
def lowerL (l : List Char) : List Char := l.map Char.toLower

def upperL (l : List Char) : List Char := l.map Char.toUpper

/-- Boolean prefix test on character lists. -/
def isPrefixL : List Char → List Char → Bool
  | [], _ => true
  | _ :: _, [] => false
  | a :: as, b :: bs => a == b && isPrefixL as bs

/-- Boolean substring test on character lists. -/
def containsL (pat : List Char) : List Char → Bool
  | [] => isPrefixL pat []
  | c :: cs => isPrefixL pat (c :: cs) || containsL pat cs

/-- JavaScript `line.toLowerCase().startsWith(p)` for an ASCII pattern `p`. -/
def lowerStartsWith (l : String) (p : String) : Bool := isPrefixL p.data (lowerL l.data)

/-- JavaScript `s.includes(sub)`. -/
def jsIncludes (s sub : String) : Bool := containsL sub.data s.data

/-- JavaScript `s.toUpperCase()` on ASCII data. -/
def jsUpper (s : String) : String := ⟨upperL s.data⟩

def isJsSpace (c : Char) : Bool :=
  c == ' ' || c == '\t' || c == '\n' || c == '\r' || c == '\x0b' || c == '\x0c'

/-- JavaScript `s.trim()` on ASCII data. -/
def trimL (l : List Char) : List Char :=
  ((l.dropWhile isJsSpace).reverse.dropWhile isJsSpace).reverse

/-- JavaScript `lines.find((l) => l.toLowerCase().startsWith(p))`. -/
def findHeaderOpt (p : String) (lines : List String) : Option String :=
  lines.find? (fun l => lowerStartsWith l p)

/-- JavaScript `lines.find(...) || ''` (the only falsy string is `''`,
so the found line passes through unchanged). -/
def findHeader (p : String) (lines : List String) : String :=
  (findHeaderOpt p lines).getD ""

/-- `cseqLine.slice(5).trim().toLowerCase()` applied to the first CSeq
header of a response (src/SipClient.js line 116). -/
def cseqValOf (lines : List String) : String :=
  ⟨lowerL (trimL ((findHeader "cseq:" lines).data.drop 5))⟩

/-- Characters before the next `'"'`, provided that quote exists
(the `[^"]+` part of the challenge-attribute regex). -/
def takeUntilQuote : List Char → Option (List Char)
  | [] => none
  | c :: cs =>
    if c == '"' then some []
    else
      match takeUntilQuote cs with
      | some t => some (c :: t)
      | none => none

/-- One attempted match of `/name="([^"]+)"/i` anchored at the head of `s`;
`pat` is the lower-cased `name="`. -/
def attrHere (pat : List Char) (s : List Char) : Option (List Char) :=
  if isPrefixL pat (lowerL s) then
    match takeUntilQuote (s.drop pat.length) with
    | some cap => if cap.isEmpty then none else some cap
    | none => none
  else none

/-- Leftmost match of `/name="([^"]+)"/i`, scanning start positions left to
right exactly as the regex engine does. -/
def matchAttrL (pat : List Char) : List Char → Option (List Char)
  | [] => attrHere pat []
  | c :: cs =>
    match attrHere pat (c :: cs) with
    | some cap => some cap
    | none => matchAttrL pat cs

/-- `header.match(/name="([^"]+)"/i)`, returning the captured group
(src/SipClient.js lines 307-308). -/
def matchQuotedAttr (name : String) (s : String) : Option String :=
  (matchAttrL (lowerL name.data ++ ['=', '"']) s.data).map (fun l => ⟨l⟩)

def skipJsSpaces : List Char → List Char
  | [] => []
  | c :: cs => if isJsSpace c then skipJsSpaces cs else c :: cs

/-- One attempted match of `/tag\s*=\S+/i` anchored at the head. -/
def tagEqHere : List Char → Bool
  | c0 :: c1 :: c2 :: rest =>
    if c0.toLower == 't' && c1.toLower == 'a' && c2.toLower == 'g' then
      match skipJsSpaces rest with
      | '=' :: c :: _ => !isJsSpace c
      | _ => false
    else false
  | _ => false

def hasTagAnywhere : List Char → Bool
  | [] => false
  | c :: cs => tagEqHere (c :: cs) || hasTagAnywhere cs

/-- `/tag\s*=\S+/i.test(toLine)` (src/SipClient.js line 440). -/
def hasTagRegex (s : String) : Bool := hasTagAnywhere s.data

/-- Decimal rendering of a natural, as the JavaScript template `${n}`
renders a non-negative integer. -/
def natStr (n : Nat) : String := Nat.repr n

/-- JavaScript `s.length`: the number of UTF-16 code units of the string. -/
def utf16Len (s : String) : Nat :=
  (s.data.map (fun c => if c.toNat < 65536 then 1 else 2)).sum

/-- Number of bytes of one character in standard UTF-8. -/
def charUtf8Len (c : Char) : Nat :=
  if c.toNat < 128 then 1 else if c.toNat < 2048 then 2 else if c.toNat < 65536 then 3 else 4

/-- Number of bytes of the UTF-8 encoding of a string: the byte count that
`Buffer.from(msg, 'utf-8')` produces and the UDP transport puts on the wire. -/
def utf8Len (s : String) : Nat := (s.data.map charUtf8Len).sum

/-! ### SipRequestBuilder (src/SipTransport.js lines 90-227) -/

/-- The argument object handed to `new SipRequestBuilder({...})`; absent
JavaScript fields are `none`. -/
structure BuildSpec where
  method : String
  fromUser : String
  toUser : Option String
  domain : String
  localIp : String
  localPort : Nat
  callId : String
  branch : String
  fromTag : String
  cseqNumber : Nat
  body : Option String
  contactUri : Option String
  expires : Option Nat
  contentType : Option String
  authHeader : Option String
  protocol : Option String

/-- The builder's fields after its constructor ran (defaults applied). -/
structure Builder where
  method : String
  fromUser : String
  toUser : Option String
  domain : String
  localIp : String
  localPort : Nat
  callId : String
  branch : String
  fromTag : String
  cseqNumber : Nat
  body : String
  contactUri : Option String
  expires : Option Nat
  contentType : String
  authHeader : Option String
  protocol : String

/-- JavaScript `x || default` for an optional string (the empty string is
falsy). -/
def jsOrStr (v : Option String) (d : String) : String :=
  match v with
  | none => d
  | some s => if s.data.isEmpty then d else s

/-- JavaScript `x || null` for an optional string. -/
def jsOrNull (v : Option String) : Option String :=
  match v with
  | none => none
  | some s => if s.data.isEmpty then none else some s

/-- The `SipRequestBuilder` constructor: upper-case the method, default the
body to `''`, the content type to `text/plain`, the protocol to `UDP`. -/
def mkBuilder (a : BuildSpec) : Builder :=
  { method := jsUpper a.method
    fromUser := a.fromUser
    toUser := a.toUser
    domain := a.domain
    localIp := a.localIp
    localPort := a.localPort
    callId := a.callId
    branch := a.branch
    fromTag := a.fromTag
    cseqNumber := a.cseqNumber
    body := jsOrStr a.body ""
    contactUri := a.contactUri
    expires := a.expires
    contentType := jsOrStr a.contentType "text/plain"
    authHeader := jsOrNull a.authHeader
    protocol := jsUpper (jsOrStr a.protocol "UDP") }

/-- JavaScript template rendering of a possibly-`undefined` string. -/
def undefStr (v : Option String) : String := v.getD "undefined"

/-- JavaScript template rendering of a possibly-`undefined` number. -/
def undefNat (v : Option Nat) : String :=
  match v with
  | some n => natStr n
  | none => "undefined"

/-- The `splice(cseqIndex + 1, 0, authHeader)` insertion of the auth header
after the CSeq line (src/SipTransport.js lines 213-220). -/
def insertAuth (auth : Option String) (lines : List String) : List String :=
  match auth with
  | none => lines
  | some h =>
    match lines.findIdx? (fun l => lowerStartsWith l "cseq:") with
    | some i => lines.take (i + 1) ++ h :: lines.drop (i + 1)
    | none => lines ++ [h]

/-- The method-specific header block of `SipRequestBuilder.build`.  Note
`length` is the JavaScript `bodyContent.length`, i.e. `utf16Len`. -/
def Builder.coreLines (b : Builder) : Except String (List String) :=
  let viaHeader := "Via: SIP/2.0/" ++ b.protocol ++ " " ++ b.localIp ++ ":" ++ natStr b.localPort ++ ";branch=" ++ b.branch ++ ";rport"
  let fromHeader := "From: <sip:" ++ b.fromUser ++ "@" ++ b.domain ++ ">;tag=" ++ b.fromTag
  let callIdHeader := "Call-ID: " ++ b.callId
  let cseqHeader := "CSeq: " ++ natStr b.cseqNumber ++ " " ++ b.method
  let maxForwards := "Max-Forwards: 70"
  let length := utf16Len b.body
  match b.method with
  | "REGISTER" => Except.ok
      [ b.method ++ " sip:" ++ b.domain ++ " SIP/2.0", viaHeader, maxForwards,
        "To: <sip:" ++ b.fromUser ++ "@" ++ b.domain ++ ">", fromHeader, callIdHeader, cseqHeader,
        "Contact: <" ++ undefStr b.contactUri ++ ">", "Expires: " ++ undefNat b.expires,
        "User-Agent: Node-SIP-Demo", "Content-Length: " ++ natStr length ]
  | "MESSAGE" => Except.ok
      [ b.method ++ " sip:" ++ undefStr b.toUser ++ "@" ++ b.domain ++ " SIP/2.0", viaHeader, maxForwards,
        "To: <sip:" ++ undefStr b.toUser ++ "@" ++ b.domain ++ ">", fromHeader, callIdHeader, cseqHeader,
        "Content-Type: " ++ b.contentType, "Content-Length: " ++ natStr length ]
  | "INVITE" => Except.ok
      [ b.method ++ " sip:" ++ undefStr b.toUser ++ "@" ++ b.domain ++ " SIP/2.0", viaHeader, maxForwards,
        "To: <sip:" ++ undefStr b.toUser ++ "@" ++ b.domain ++ ">", fromHeader, callIdHeader, cseqHeader,
        "Contact: <sip:" ++ b.fromUser ++ "@" ++ b.localIp ++ ":" ++ natStr b.localPort ++ ">",
        "Content-Type: application/sdp", "Content-Length: " ++ natStr length ]
  | "ACK" => Except.ok
      [ b.method ++ " sip:" ++ undefStr b.toUser ++ "@" ++ b.domain ++ " SIP/2.0", viaHeader, maxForwards,
        "To: <sip:" ++ undefStr b.toUser ++ "@" ++ b.domain ++ ">", fromHeader, callIdHeader,
        "CSeq: " ++ natStr b.cseqNumber ++ " ACK", "Content-Length: 0" ]
  | m => Except.error ("Unknown method: " ++ m)

/-- `SipRequestBuilder.build` up to the final CRLF join: the header block,
the optional auth insertion, then one pushed blank line and the body. -/
def Builder.buildLines (b : Builder) : Except String (List String) :=
  b.coreLines.map (fun ls => insertAuth b.authHeader ls ++ ["", b.body])

/-- `SipRequestBuilder.build`: the CRLF-joined message text. -/
def Builder.build (b : Builder) : Except String String :=
  b.buildLines.map (fun ls => String.intercalate "\r\n" ls)

/-- The line list of a successfully built request (every client call site
uses one of the four supported methods, so the error branch never fires). -/
def buildMsgLines (a : BuildSpec) : List String :=
  ((mkBuilder a).buildLines).toOption.getD []

/-! ### Digest authentication (src/SipClient.js lines 329-336) -/

/-- `_buildDigestAuthHeader` with MD5 as an uninterpreted function. -/
def buildDigestAuthHeader (md5 : String → String)
    (method uri username password realm nonce : String) (isProxy : Bool) : String :=
  let a1 := md5 (username ++ ":" ++ realm ++ ":" ++ password)
  let a2 := md5 (jsUpper method ++ ":" ++ uri)
  let response := md5 (a1 ++ ":" ++ nonce ++ ":" ++ a2)
  let authType := if isProxy then "Proxy-Authorization" else "Authorization"
  authType ++ ": Digest username=\"" ++ username ++ "\", realm=\"" ++ realm ++
    "\", nonce=\"" ++ nonce ++ "\", uri=\"" ++ uri ++ "\", response=\"" ++ response ++ "\""

/-! ### SipClient state and transitions (src/SipClient.js) -/

/-- Modelled from the spec: the `./config` module is not under `src/`; the
spec gives its shape (server host and port, local bind address, registration
expiry, keep-alive period).  All theorems quantify over it. -/
structure Config where
  serverHost : String
  serverPort : Nat
  localIp : String
  registerExpires : Nat
  reRegisterPeriod : Nat

/-- The mutable fields of a `SipClient` instance that the dispatch paths
read or write, plus the immutable identity fields. -/
structure ClientState where
  fromUser : String
  password : String
  localPort : Nat
  toUser : String
  messageBody : String
  mode : String
  isRegistered : Bool
  regCallId : String
  regBranch : String
  regFromTag : String
  regCseq : Nat
  inviteCallId : Option String
  inviteBranch : Option String
  inviteFromTag : Option String
  inviteCseq : Nat

/-- The random values one send step draws (`Date.now()` and the three
`Math.floor(Math.random() * k)` draws used by `_makeCallId`, `_makeBranch`
and `_makeTag`). -/
structure Fresh where
  nowMs : Nat
  randCallId : Nat
  randBranch : Nat
  randTag : Nat

/-- `_makeCallId(prefix)`. -/
def mkCallId (p : String) (f : Fresh) : String :=
  p ++ "-" ++ natStr f.nowMs ++ "-" ++ natStr f.randCallId

/-- `_makeBranch()`. -/
def mkBranch (f : Fresh) : String := "z9hG4bK-" ++ natStr f.randBranch

/-- `_makeTag()`. -/
def mkTag (f : Fresh) : String := "tag-" ++ natStr f.randTag

/-- JavaScript template rendering of a possibly-`null` string field. -/
def nullStr (v : Option String) : String := v.getD "null"

/-- One datagram handed to `transport.sendPacket`, kept as the line list the
builder joined with CRLF; the wire text is `Packet.wire`. -/
structure Packet where
  lines : List String
  host : String
  port : Nat

def Packet.wire (p : Packet) : String := String.intercalate "\r\n" p.lines

def buildPacket (a : BuildSpec) (host : String) (port : Nat) : Packet :=
  ⟨buildMsgLines a, host, port⟩

/-- The builder arguments of `_sendRegister` / `_sendRegisterWithAuth`
(state already carries the branch and CSeq to use). -/
def sendRegisterSpec (cfg : Config) (st : ClientState) : BuildSpec :=
  { method := "REGISTER", fromUser := st.fromUser, toUser := none, domain := cfg.serverHost,
    localIp := cfg.localIp, localPort := st.localPort, callId := st.regCallId,
    branch := st.regBranch, fromTag := st.regFromTag, cseqNumber := st.regCseq, body := none,
    contactUri := some ("sip:" ++ st.fromUser ++ "@" ++ cfg.localIp ++ ":" ++ natStr st.localPort),
    expires := some cfg.registerExpires, contentType := none, authHeader := none, protocol := none }

/-- `_sendRegister`: regenerate the branch, bump the CSeq, build, send. -/
def sendRegister (cfg : Config) (st : ClientState) (f : Fresh) : ClientState × Packet :=
  let st' := { st with regBranch := mkBranch f, regCseq := st.regCseq + 1 }
  (st', buildPacket (sendRegisterSpec cfg st') cfg.serverHost cfg.serverPort)

def sendRegisterWithAuthSpec (md5 : String → String) (cfg : Config) (st : ClientState)
    (realm nonce : String) (px : Bool) : BuildSpec :=
  { sendRegisterSpec cfg st with
    authHeader := some (buildDigestAuthHeader md5 "REGISTER" ("sip:" ++ cfg.serverHost)
      st.fromUser st.password realm nonce px) }

/-- `_sendRegisterWithAuth`: regenerate the branch (CSeq was already bumped
by `_handleAuthChallenge`), attach the digest header, build, send. -/
def sendRegisterWithAuth (md5 : String → String) (cfg : Config) (st : ClientState)
    (realm nonce : String) (px : Bool) (f : Fresh) : ClientState × Packet :=
  let st' := { st with regBranch := mkBranch f }
  (st', buildPacket (sendRegisterWithAuthSpec md5 cfg st' realm nonce px) cfg.serverHost cfg.serverPort)

/-- The builder arguments shared by `_sendMessage` / `_sendMessageWithAuth`. -/
def sendMessageSpec (cfg : Config) (st : ClientState) (callId branch fromTag : String)
    (cseq : Nat) (auth : Option String) : BuildSpec :=
  { method := "MESSAGE", fromUser := st.fromUser, toUser := some st.toUser,
    domain := cfg.serverHost, localIp := cfg.localIp, localPort := st.localPort,
    callId := callId, branch := branch, fromTag := fromTag, cseqNumber := cseq,
    body := some st.messageBody, contactUri := none, expires := none, contentType := none,
    authHeader := auth, protocol := none }

/-- `_sendMessage`: fresh call id / branch / tag, hard-coded CSeq 1; it
mutates no client field. -/
def sendMessage (cfg : Config) (st : ClientState) (f : Fresh) : Packet :=
  buildPacket (sendMessageSpec cfg st (mkCallId "msg" f) (mkBranch f) (mkTag f) 1 none)
    cfg.serverHost cfg.serverPort

/-- `_sendMessageWithAuth`: fresh `msg2` call id / branch / tag, hard-coded
CSeq 2, digest header; it mutates no client field. -/
def sendMessageWithAuth (md5 : String → String) (cfg : Config) (st : ClientState)
    (realm nonce : String) (px : Bool) (f : Fresh) : Packet :=
  buildPacket (sendMessageSpec cfg st (mkCallId "msg2" f) (mkBranch f) (mkTag f) 2
      (some (buildDigestAuthHeader md5 "MESSAGE" ("sip:" ++ st.toUser ++ "@" ++ cfg.serverHost)
        st.fromUser st.password realm nonce px)))
    cfg.serverHost cfg.serverPort

/-- The builder arguments of `_sendInvite` / `_sendInviteWithAuth`; the
call id, branch and from tag come from the (possibly `null`) invite fields. -/
def sendInviteSpec (cfg : Config) (st : ClientState) (auth : Option String) : BuildSpec :=
  { method := "INVITE", fromUser := st.fromUser, toUser := some st.toUser,
    domain := cfg.serverHost, localIp := cfg.localIp, localPort := st.localPort,
    callId := nullStr st.inviteCallId, branch := nullStr st.inviteBranch,
    fromTag := nullStr st.inviteFromTag, cseqNumber := st.inviteCseq, body := some "",
    contactUri := none, expires := none, contentType := none, authHeader := auth, protocol := none }

/-- `_sendInvite`: mint the invite family's call id, branch and tag. -/
def sendInvite (cfg : Config) (st : ClientState) (f : Fresh) : ClientState × Packet :=
  let st' := { st with inviteCallId := some (mkCallId "invite" f),
                       inviteBranch := some (mkBranch f),
                       inviteFromTag := some (mkTag f) }
  (st', buildPacket (sendInviteSpec cfg st' none) cfg.serverHost cfg.serverPort)

/-- `_sendInviteWithAuth`: regenerate only the branch, attach the digest
header (CSeq was already bumped by `_handleAuthChallenge`). -/
def sendInviteWithAuth (md5 : String → String) (cfg : Config) (st : ClientState)
    (realm nonce : String) (px : Bool) (f : Fresh) : ClientState × Packet :=
  let st' := { st with inviteBranch := some (mkBranch f) }
  (st', buildPacket (sendInviteSpec cfg st'
      (some (buildDigestAuthHeader md5 "INVITE" ("sip:" ++ st.toUser ++ "@" ++ cfg.serverHost)
        st.fromUser st.password realm nonce px)))
    cfg.serverHost cfg.serverPort)

/-- The builder arguments of `_sendAckForInvite` (branch is the invite
branch with `-ack` appended, CSeq number equals the invite CSeq). -/
def sendAckSpec (cfg : Config) (st : ClientState) : BuildSpec :=
  { method := "ACK", fromUser := st.fromUser, toUser := some st.toUser,
    domain := cfg.serverHost, localIp := cfg.localIp, localPort := st.localPort,
    callId := nullStr st.inviteCallId, branch := nullStr st.inviteBranch ++ "-ack",
    fromTag := nullStr st.inviteFromTag, cseqNumber := st.inviteCseq, body := none,
    contactUri := none, expires := none, contentType := none, authHeader := none, protocol := none }

/-- `_sendAckForInvite`: build and send the ACK; in send mode the send
callback then calls `close()` once (returned as the second component). -/
def sendAckForInvite (cfg : Config) (st : ClientState) : Packet × Nat :=
  (buildPacket (sendAckSpec cfg st) cfg.serverHost cfg.serverPort,
   if st.mode == "send" then 1 else 0)

/-- `_handleAuthChallenge` (src/SipClient.js lines 295-327): locate the
challenge header, extract the quoted realm and nonce, re-dispatch on the
CSeq value; on any failure just return (only a log is emitted). -/
def handleAuthChallenge (md5 : String → String) (cfg : Config) (isProxy : Bool)
    (lines : List String) (cseqVal : String) (st : ClientState) (f : Fresh) :
    ClientState × List Packet :=
  match findHeaderOpt (if isProxy then "proxy-authenticate:" else "www-authenticate:") lines with
  | none => (st, [])
  | some hdr =>
    match matchQuotedAttr "realm" hdr, matchQuotedAttr "nonce" hdr with
    | some realm, some nonce =>
      if jsIncludes cseqVal "register" then
        let st1 := { st with regCseq := st.regCseq + 1 }
        let r := sendRegisterWithAuth md5 cfg st1 realm nonce isProxy f
        (r.1, [r.2])
      else if jsIncludes cseqVal "message" then
        (st, [sendMessageWithAuth md5 cfg st realm nonce isProxy f])
      else if jsIncludes cseqVal "invite" then
        let st1 := { st with inviteCseq := st.inviteCseq + 1 }
        let r := sendInviteWithAuth md5 cfg st1 realm nonce isProxy f
        (r.1, [r.2])
      else (st, [])
    | _, _ => (st, [])

/-- An inbound SIP response as the transport delivers it. -/
structure Response where
  statusCode : Nat
  reason : String
  messageLines : List String

/-- The observable outcome of one dispatch step: the new client state, the
packets passed to `sendPacket`, and how many times `close()` ran. -/
structure StepOut where
  state : ClientState
  packets : List Packet
  closeCalls : Nat

/-- `_handleResponse` (src/SipClient.js lines 113-152). -/
def handleResponse (md5 : String → String) (cfg : Config) (st : ClientState)
    (r : Response) (f : Fresh) : StepOut :=
  let cseqVal := cseqValOf r.messageLines
  if r.statusCode = 401 ∨ r.statusCode = 407 then
    let out := handleAuthChallenge md5 cfg (r.statusCode == 407) r.messageLines cseqVal st f
    ⟨out.1, out.2, 0⟩
  else if 200 ≤ r.statusCode ∧ r.statusCode < 300 then
    if jsIncludes cseqVal "register" then
      ⟨{ st with isRegistered := true }, [], 0⟩
    else if jsIncludes cseqVal "message" then
      ⟨st, [], if st.mode == "send" then 1 else 0⟩
    else if jsIncludes cseqVal "invite" then
      let a := sendAckForInvite cfg st
      ⟨st, [a.1], a.2⟩
    else ⟨st, [], 0⟩
  else ⟨st, [], if st.mode == "send" then 1 else 0⟩

/-! ### Inbound request handling (src/SipClient.js lines 157-178, 433-460) -/

/-- `toLine.replace(/>$/, ";tag=N>")` with `N` the random tag draw. -/
def addTagToLine (toLine : String) (rt : Nat) : String :=
  match toLine.data.getLast? with
  | some c =>
    if c == '>' then ⟨toLine.data.dropLast ++ (";tag=" ++ natStr rt ++ ">").data⟩ else toLine
  | none => toLine

/-- `_build200Ok` up to the CRLF join: copy the first Via / Call-ID / From /
To / CSeq lines of the inbound request (empty string when absent), append a
random tag to an untagged To line, and finish with `Content-Length: 0` and
two empty strings (producing the final blank lines). -/
def build200OkLines (lines : List String) (rt : Nat) : List String :=
  let viaLine := findHeader "via:" lines
  let callIdLine := findHeader "call-id:" lines
  let fromLine := findHeader "from:" lines
  let toLine0 := findHeader "to:" lines
  let cseqLine := findHeader "cseq:" lines
  let toLine := if hasTagRegex toLine0 then toLine0 else addTagToLine toLine0 rt
  ["SIP/2.0 200 OK", viaLine, toLine, fromLine, callIdLine, cseqLine,
   "Content-Length: 0", "", ""]

/-- `_build200Ok`: the joined reply text. -/
def build200Ok (lines : List String) (rt : Nat) : String :=
  String.intercalate "\r\n" (build200OkLines lines rt)

/-- `_buildInvite200Ok` just delegates to `_build200Ok`. -/
def buildInvite200OkLines (lines : List String) (rt : Nat) : List String :=
  build200OkLines lines rt

/-- The sender address of an inbound datagram. -/
structure RInfo where
  address : String
  port : Nat

/-- `_handleRequest`: every method branch replies with the 200 OK to the
observed sender address; no client field is mutated. -/
def handleRequest (method : String) (lines : List String) (rinfo : RInfo) (rt : Nat) :
    List Packet :=
  if method == "MESSAGE" then [⟨build200OkLines lines rt, rinfo.address, rinfo.port⟩]
  else if method == "INVITE" then [⟨buildInvite200OkLines lines rt, rinfo.address, rinfo.port⟩]
  else [⟨build200OkLines lines rt, rinfo.address, rinfo.port⟩]

/-! ### close() (src/SipClient.js lines 99-104, src/SipTransport.js 81-84)

The dgram socket is an external node primitive: per node's documented
semantics, `socket.close()` on a socket that is no longer running throws
`ERR_SOCKET_DGRAM_NOT_RUNNING`; that documented behaviour is embedded here
as `udpSocketClose`.  `SipTransport.close` and `SipClient.close` call it
unconditionally, so an `Except.error` models the exception propagating out
of `close()`. -/

structure UdpSocket where
  running : Bool

def udpSocketClose (s : UdpSocket) : Except String UdpSocket :=
  if s.running then Except.ok ⟨false⟩ else Except.error "ERR_SOCKET_DGRAM_NOT_RUNNING"

structure TransportHandle where
  socket : UdpSocket

/-- `SipTransport.close`: log a warning, then `this.socket.close()`. -/
def transportClose (t : TransportHandle) : Except String TransportHandle :=
  (udpSocketClose t.socket).map (fun s => ⟨s⟩)

structure ClientHandle where
  keepAliveTimer : Bool
  transport : TransportHandle

/-- `SipClient.close`: clear the keep-alive timer (always harmless), then
`this.transport.close()`. -/
def clientClose (c : ClientHandle) : Except String ClientHandle :=
  (transportClose c.transport).map (fun t => ⟨false, t⟩)

/-! ### Decimal digits: ground-truth used to invert `Nat.repr` -/

/-- Decimal digit list of a natural number, most significant first. -/
def natDigits (n : Nat) : List Char :=
  if _h : n < 10 then [Nat.digitChar n]
  else natDigits (n / 10) ++ [Nat.digitChar (n % 10)]
decreasing_by exact Nat.div_lt_self (by omega) (by omega)

/-- Horner evaluation of a decimal digit list starting from `a`. -/
def digitsValFrom (a : Nat) (l : List Char) : Nat :=
  l.foldl (fun acc c => 10 * acc + (c.toNat - 48)) a

def digitsVal (l : List Char) : Nat := digitsValFrom 0 l

/-! ### Traces used by the branch-uniqueness claim -/

/-- The `regBranch` values carried by a run of consecutive
`_sendRegister` calls (one per keep-alive tick), one per supplied draw. -/
def regBranchTrace (cfg : Config) : ClientState → List Fresh → List String
  | _, [] => []
  | st, f :: fs =>
    (sendRegister cfg st f).1.regBranch :: regBranchTrace cfg (sendRegister cfg st f).1 fs

/-! ### Concrete fixtures used by the closed counterexamples and witnesses -/

/-- Stand-in for the uninterpreted MD5 when a closed evaluation is needed
(the properties evaluated never depend on the digest value). -/
def idmd5 : String → String := fun s => s

def cfg0 : Config := ⟨"srv.ex", 5060, "10.0.0.1", 300, 60⟩

def st0 : ClientState :=
  { fromUser := "alice", password := "pw", localPort := 5062, toUser := "bob",
    messageBody := "hi", mode := "send", isRegistered := false,
    regCallId := "reg-1-1", regBranch := "z9hG4bK-11", regFromTag := "tag-7", regCseq := 1,
    inviteCallId := none, inviteBranch := none, inviteFromTag := none, inviteCseq := 1 }

def f1 : Fresh := ⟨100, 1, 2, 3⟩
def f2 : Fresh := ⟨101, 4, 5, 6⟩
def f3 : Fresh := ⟨102, 7, 8, 9⟩

/-- A MESSAGE build whose body `"é"` is one UTF-16 code unit but two UTF-8
bytes. -/
def c1spec : BuildSpec :=
  { method := "MESSAGE", fromUser := "alice", toUser := some "bob", domain := "ex.com",
    localIp := "10.0.0.1", localPort := 5062, callId := "cid-1", branch := "z9hG4bK-1",
    fromTag := "tag-1", cseqNumber := 1, body := some "é", contactUri := none, expires := none,
    contentType := none, authHeader := none, protocol := none }

/-- An ACK build carrying a non-empty body. -/
def c1ack : BuildSpec := { c1spec with method := "ACK", body := some "xyz" }

/-- An inbound MESSAGE request whose To line already carries a tag. -/
def c2req : List String :=
  ["MESSAGE sip:alice@ex.com SIP/2.0",
   "Via: SIP/2.0/UDP 9.8.7.6:5070;branch=z9hG4bK-42;rport",
   "Max-Forwards: 70",
   "To: <sip:alice@ex.com>;tag=77",
   "From: <sip:bob@ex.com>;tag=88",
   "Call-ID: cid-9",
   "CSeq: 3 MESSAGE",
   "Content-Length: 0"]

/-- The same inbound request with an untagged To line. -/
def c2reqNoTag : List String :=
  ["MESSAGE sip:alice@ex.com SIP/2.0",
   "Via: SIP/2.0/UDP 9.8.7.6:5070;branch=z9hG4bK-42;rport",
   "Max-Forwards: 70",
   "To: <sip:alice@ex.com>",
   "From: <sip:bob@ex.com>;tag=88",
   "Call-ID: cid-9",
   "CSeq: 3 MESSAGE",
   "Content-Length: 0"]

/-- First 401 challenge of the MESSAGE family (CSeq of the initial send). -/
def c3chal : Response :=
  ⟨401, "Unauthorized",
   ["SIP/2.0 401 Unauthorized",
    "WWW-Authenticate: Digest realm=\"r\", nonce=\"n\"",
    "CSeq: 1 MESSAGE"]⟩

/-- Second 401 challenge of the MESSAGE family (CSeq of the first retry). -/
def c3chal2 : Response :=
  ⟨401, "Unauthorized",
   ["SIP/2.0 401 Unauthorized",
    "WWW-Authenticate: Digest realm=\"r\", nonce=\"n\"",
    "CSeq: 2 MESSAGE"]⟩

/-- A draw that repeats an earlier branch value. -/
def f5 : Fresh := ⟨200, 0, 7, 0⟩

/-- State after a REGISTER was sent with branch `z9hG4bK-5` and CSeq 2. -/
def c5st : ClientState := { st0 with regBranch := "z9hG4bK-5", regCseq := 2 }

/-- 401 challenge of that REGISTER. -/
def c5resp : Response :=
  ⟨401, "Unauthorized",
   ["SIP/2.0 401 Unauthorized",
    "WWW-Authenticate: Digest realm=\"r\", nonce=\"n\"",
    "CSeq: 2 REGISTER"]⟩

/-- A fresh draw whose branch value collides with the challenged branch. -/
def c5f : Fresh := ⟨300, 0, 5, 0⟩

/-- A 2xx response whose CSeq method token is `REINVITE`: not REGISTER,
not MESSAGE and not INVITE, yet it contains `invite` as a substring. -/
def c10resp : Response :=
  ⟨200, "OK", ["SIP/2.0 200 OK", "CSeq: 2 REINVITE", "Content-Length: 0"]⟩

/-- A 2xx response for a pending INVITE. -/
def c6resp : Response :=
  ⟨200, "OK", ["SIP/2.0 200 OK", "CSeq: 1 INVITE", "Content-Length: 0"]⟩

/-- A 401 without any challenge header. -/
def c8resp : Response :=
  ⟨401, "Unauthorized", ["SIP/2.0 401 Unauthorized", "CSeq: 2 REGISTER"]⟩

/-- A 407 whose challenge header carries no parsable realm. -/
def c8respMalformed : Response :=
  ⟨407, "Proxy Authentication Required",
   ["SIP/2.0 407 Proxy Authentication Required",
    "Proxy-Authenticate: Digest realm=, nonce=\"n\"",
    "CSeq: 2 REGISTER"]⟩

/-- A 2xx response carrying no CSeq header at all. -/
def c10ok : Response := ⟨200, "OK", ["SIP/2.0 200 OK", "Content-Length: 0"]⟩

/-- A started client: keep-alive timer armed, socket running. -/
def c9start : ClientHandle := ⟨true, ⟨⟨true⟩⟩⟩

/-- The client after the first `close()` returned. -/
def c9closed : ClientHandle := ⟨false, ⟨⟨false⟩⟩⟩

/-! ## Theorems

General string and decimal-digit lemmas first, then per-send shape lemmas,
then the dispatch lemmas, then one theorem (plus witness or counterexample)
per claim. -/

theorem strData_append (s t : String) : (s ++ t).data = s.data ++ t.data := rfl

theorem strOfData {a b : String} (h : a.data = b.data) : a = b := by
  cases a; cases b; exact congrArg String.mk h

theorem digitChar_toNat {k : Nat} (h : k < 10) : (Nat.digitChar k).toNat = 48 + k := by
  interval_cases k <;> rfl

theorem natDigits_lt {n : Nat} (h : n < 10) : natDigits n = [Nat.digitChar n] := by
  conv_lhs => rw [natDigits]
  rw [dif_pos h]

theorem natDigits_ge {n : Nat} (h : ¬ n < 10) :
    natDigits n = natDigits (n / 10) ++ [Nat.digitChar (n % 10)] := by
  conv_lhs => rw [natDigits]
  rw [dif_neg h]

theorem toDigitsCore_eq : ∀ (fuel n : Nat) (ds : List Char), n < fuel →
    Nat.toDigitsCore 10 fuel n ds = natDigits n ++ ds := by
  intro fuel
  induction fuel with
  | zero => intro n ds h; omega
  | succ fuel ih =>
    intro n ds h
    simp only [Nat.toDigitsCore]
    by_cases h0 : n / 10 = 0
    · have hn : n < 10 := by omega
      rw [if_pos h0, natDigits_lt hn, Nat.mod_eq_of_lt hn]
      rfl
    · have hlt : n / 10 < fuel := by omega
      rw [if_neg h0, ih (n / 10) _ hlt, natDigits_ge (by omega : ¬ n < 10), List.append_assoc]
      rfl

theorem digitsValFrom_natDigits (n : Nat) : ∀ a : Nat,
    digitsValFrom a (natDigits n) = a * 10 ^ (natDigits n).length + n := by
  induction n using Nat.strong_induction_on with
  | _ n ih =>
    intro a
    by_cases hn : n < 10
    · rw [natDigits_lt hn]
      simp [digitsValFrom, List.foldl, digitChar_toNat hn]
      omega
    · rw [natDigits_ge hn]
      have hdiv : n / 10 < n := Nat.div_lt_self (by omega) (by omega)
      unfold digitsValFrom
      rw [List.foldl_append]
      have h1 := ih (n / 10) hdiv a
      unfold digitsValFrom at h1
      rw [h1]
      have hm : n % 10 < 10 := Nat.mod_lt _ (by omega)
      simp [List.foldl, digitChar_toNat hm, List.length_append, Nat.pow_succ]
      have := Nat.div_add_mod n 10
      ring_nf
      omega

theorem natDigits_inj {m n : Nat} (h : natDigits m = natDigits n) : m = n := by
  have hm := digitsValFrom_natDigits m 0
  have hn := digitsValFrom_natDigits n 0
  rw [h] at hm
  omega

theorem natStr_inj {m n : Nat} (h : natStr m = natStr n) : m = n := by
  apply natDigits_inj
  have hm : natStr m = ⟨natDigits m⟩ := by
    show Nat.repr m = _
    rw [Nat.repr, Nat.toDigits, toDigitsCore_eq (m + 1) m [] (by omega), List.append_nil]
    rfl
  have hn : natStr n = ⟨natDigits n⟩ := by
    show Nat.repr n = _
    rw [Nat.repr, Nat.toDigits, toDigitsCore_eq (n + 1) n [] (by omega), List.append_nil]
    rfl
  rw [hm, hn] at h
  exact congrArg String.data h

theorem mkBranch_inj {f g : Fresh} (h : mkBranch f = mkBranch g) :
    f.randBranch = g.randBranch := by
  apply natStr_inj
  have h2 := congrArg String.data h
  rw [mkBranch, mkBranch, strData_append, strData_append] at h2
  exact strOfData (List.append_cancel_left h2)

theorem sendRegister_lines (cfg : Config) (st : ClientState) (f : Fresh) :
    (sendRegister cfg st f).2.lines =
    ["REGISTER" ++ " sip:" ++ cfg.serverHost ++ " SIP/2.0",
     "Via: SIP/2.0/" ++ "UDP" ++ " " ++ cfg.localIp ++ ":" ++ natStr st.localPort ++ ";branch=" ++ mkBranch f ++ ";rport",
     "Max-Forwards: 70",
     "To: <sip:" ++ st.fromUser ++ "@" ++ cfg.serverHost ++ ">",
     "From: <sip:" ++ st.fromUser ++ "@" ++ cfg.serverHost ++ ">;tag=" ++ st.regFromTag,
     "Call-ID: " ++ st.regCallId,
     "CSeq: " ++ natStr (st.regCseq + 1) ++ " " ++ "REGISTER",
     "Contact: <" ++ ("sip:" ++ st.fromUser ++ "@" ++ cfg.localIp ++ ":" ++ natStr st.localPort) ++ ">",
     "Expires: " ++ natStr cfg.registerExpires,
     "User-Agent: Node-SIP-Demo",
     "Content-Length: " ++ natStr (utf16Len ""),
     "", ""] := rfl

theorem sendRegisterWithAuth_lines (md5 : String → String) (cfg : Config) (st : ClientState)
    (rl nc : String) (px : Bool) (f : Fresh) :
    (sendRegisterWithAuth md5 cfg st rl nc px f).2.lines =
    ["REGISTER" ++ " sip:" ++ cfg.serverHost ++ " SIP/2.0",
     "Via: SIP/2.0/" ++ "UDP" ++ " " ++ cfg.localIp ++ ":" ++ natStr st.localPort ++ ";branch=" ++ mkBranch f ++ ";rport",
     "Max-Forwards: 70",
     "To: <sip:" ++ st.fromUser ++ "@" ++ cfg.serverHost ++ ">",
     "From: <sip:" ++ st.fromUser ++ "@" ++ cfg.serverHost ++ ">;tag=" ++ st.regFromTag,
     "Call-ID: " ++ st.regCallId,
     "CSeq: " ++ natStr st.regCseq ++ " " ++ "REGISTER",
     buildDigestAuthHeader md5 "REGISTER" ("sip:" ++ cfg.serverHost) st.fromUser st.password rl nc px,
     "Contact: <" ++ ("sip:" ++ st.fromUser ++ "@" ++ cfg.localIp ++ ":" ++ natStr st.localPort) ++ ">",
     "Expires: " ++ natStr cfg.registerExpires,
     "User-Agent: Node-SIP-Demo",
     "Content-Length: " ++ natStr (utf16Len ""),
     "", ""] := by cases px <;> rfl

theorem sendMessage_lines (cfg : Config) (st : ClientState) (f : Fresh) :
    (sendMessage cfg st f).lines =
    ["MESSAGE" ++ " sip:" ++ st.toUser ++ "@" ++ cfg.serverHost ++ " SIP/2.0",
     "Via: SIP/2.0/" ++ "UDP" ++ " " ++ cfg.localIp ++ ":" ++ natStr st.localPort ++ ";branch=" ++ mkBranch f ++ ";rport",
     "Max-Forwards: 70",
     "To: <sip:" ++ st.toUser ++ "@" ++ cfg.serverHost ++ ">",
     "From: <sip:" ++ st.fromUser ++ "@" ++ cfg.serverHost ++ ">;tag=" ++ mkTag f,
     "Call-ID: " ++ mkCallId "msg" f,
     "CSeq: " ++ natStr 1 ++ " " ++ "MESSAGE",
     "Content-Type: text/plain",
     "Content-Length: " ++ natStr (utf16Len (jsOrStr (some st.messageBody) "")),
     "", jsOrStr (some st.messageBody) ""] := rfl

theorem sendMessageWithAuth_lines (md5 : String → String) (cfg : Config) (st : ClientState)
    (rl nc : String) (px : Bool) (f : Fresh) :
    (sendMessageWithAuth md5 cfg st rl nc px f).lines =
    ["MESSAGE" ++ " sip:" ++ st.toUser ++ "@" ++ cfg.serverHost ++ " SIP/2.0",
     "Via: SIP/2.0/" ++ "UDP" ++ " " ++ cfg.localIp ++ ":" ++ natStr st.localPort ++ ";branch=" ++ mkBranch f ++ ";rport",
     "Max-Forwards: 70",
     "To: <sip:" ++ st.toUser ++ "@" ++ cfg.serverHost ++ ">",
     "From: <sip:" ++ st.fromUser ++ "@" ++ cfg.serverHost ++ ">;tag=" ++ mkTag f,
     "Call-ID: " ++ mkCallId "msg2" f,
     "CSeq: " ++ natStr 2 ++ " " ++ "MESSAGE",
     buildDigestAuthHeader md5 "MESSAGE" ("sip:" ++ st.toUser ++ "@" ++ cfg.serverHost) st.fromUser st.password rl nc px,
     "Content-Type: text/plain",
     "Content-Length: " ++ natStr (utf16Len (jsOrStr (some st.messageBody) "")),
     "", jsOrStr (some st.messageBody) ""] := by cases px <;> rfl

theorem sendInvite_lines (cfg : Config) (st : ClientState) (f : Fresh) :
    (sendInvite cfg st f).2.lines =
    ["INVITE" ++ " sip:" ++ st.toUser ++ "@" ++ cfg.serverHost ++ " SIP/2.0",
     "Via: SIP/2.0/" ++ "UDP" ++ " " ++ cfg.localIp ++ ":" ++ natStr st.localPort ++ ";branch=" ++ mkBranch f ++ ";rport",
     "Max-Forwards: 70",
     "To: <sip:" ++ st.toUser ++ "@" ++ cfg.serverHost ++ ">",
     "From: <sip:" ++ st.fromUser ++ "@" ++ cfg.serverHost ++ ">;tag=" ++ mkTag f,
     "Call-ID: " ++ mkCallId "invite" f,
     "CSeq: " ++ natStr st.inviteCseq ++ " " ++ "INVITE",
     "Contact: <sip:" ++ st.fromUser ++ "@" ++ cfg.localIp ++ ":" ++ natStr st.localPort ++ ">",
     "Content-Type: application/sdp",
     "Content-Length: " ++ natStr (utf16Len (jsOrStr (some "") "")),
     "", jsOrStr (some "") ""] := rfl

theorem sendInviteWithAuth_lines (md5 : String → String) (cfg : Config) (st : ClientState)
    (rl nc : String) (px : Bool) (f : Fresh) :
    (sendInviteWithAuth md5 cfg st rl nc px f).2.lines =
    ["INVITE" ++ " sip:" ++ st.toUser ++ "@" ++ cfg.serverHost ++ " SIP/2.0",
     "Via: SIP/2.0/" ++ "UDP" ++ " " ++ cfg.localIp ++ ":" ++ natStr st.localPort ++ ";branch=" ++ mkBranch f ++ ";rport",
     "Max-Forwards: 70",
     "To: <sip:" ++ st.toUser ++ "@" ++ cfg.serverHost ++ ">",
     "From: <sip:" ++ st.fromUser ++ "@" ++ cfg.serverHost ++ ">;tag=" ++ nullStr st.inviteFromTag,
     "Call-ID: " ++ nullStr st.inviteCallId,
     "CSeq: " ++ natStr st.inviteCseq ++ " " ++ "INVITE",
     buildDigestAuthHeader md5 "INVITE" ("sip:" ++ st.toUser ++ "@" ++ cfg.serverHost) st.fromUser st.password rl nc px,
     "Contact: <sip:" ++ st.fromUser ++ "@" ++ cfg.localIp ++ ":" ++ natStr st.localPort ++ ">",
     "Content-Type: application/sdp",
     "Content-Length: " ++ natStr (utf16Len (jsOrStr (some "") "")),
     "", jsOrStr (some "") ""] := by cases px <;> rfl

theorem sendAck_lines (cfg : Config) (st : ClientState) :
    (sendAckForInvite cfg st).1.lines =
    ["ACK" ++ " sip:" ++ st.toUser ++ "@" ++ cfg.serverHost ++ " SIP/2.0",
     "Via: SIP/2.0/" ++ "UDP" ++ " " ++ cfg.localIp ++ ":" ++ natStr st.localPort ++ ";branch=" ++ (nullStr st.inviteBranch ++ "-ack") ++ ";rport",
     "Max-Forwards: 70",
     "To: <sip:" ++ st.toUser ++ "@" ++ cfg.serverHost ++ ">",
     "From: <sip:" ++ st.fromUser ++ "@" ++ cfg.serverHost ++ ">;tag=" ++ nullStr st.inviteFromTag,
     "Call-ID: " ++ nullStr st.inviteCallId,
     "CSeq: " ++ natStr st.inviteCseq ++ " ACK",
     "Content-Length: 0",
     "", ""] := rfl

theorem handleResponse_auth (md5 : String → String) (cfg : Config) (st : ClientState)
    (r : Response) (f : Fresh) (hs : r.statusCode = 401 ∨ r.statusCode = 407) :
    handleResponse md5 cfg st r f =
      ⟨(handleAuthChallenge md5 cfg (r.statusCode == 407) r.messageLines
          (cseqValOf r.messageLines) st f).1,
       (handleAuthChallenge md5 cfg (r.statusCode == 407) r.messageLines
          (cseqValOf r.messageLines) st f).2, 0⟩ := by
  unfold handleResponse
  rw [if_pos hs]

theorem handleAuthChallenge_register (md5 : String → String) (cfg : Config) (px : Bool)
    (L : List String) (v : String) (st : ClientState) (f : Fresh) (hdr rl nc : String)
    (hfind : findHeaderOpt (if px then "proxy-authenticate:" else "www-authenticate:") L = some hdr)
    (hrl : matchQuotedAttr "realm" hdr = some rl)
    (hnc : matchQuotedAttr "nonce" hdr = some nc)
    (hreg : jsIncludes v "register" = true) :
    handleAuthChallenge md5 cfg px L v st f =
      ((sendRegisterWithAuth md5 cfg { st with regCseq := st.regCseq + 1 } rl nc px f).1,
       [(sendRegisterWithAuth md5 cfg { st with regCseq := st.regCseq + 1 } rl nc px f).2]) := by
  unfold handleAuthChallenge
  rw [hfind]
  simp only [hrl, hnc, hreg, if_true]

theorem handleAuthChallenge_message (md5 : String → String) (cfg : Config) (px : Bool)
    (L : List String) (v : String) (st : ClientState) (f : Fresh) (hdr rl nc : String)
    (hfind : findHeaderOpt (if px then "proxy-authenticate:" else "www-authenticate:") L = some hdr)
    (hrl : matchQuotedAttr "realm" hdr = some rl)
    (hnc : matchQuotedAttr "nonce" hdr = some nc)
    (hreg : jsIncludes v "register" = false)
    (hmsg : jsIncludes v "message" = true) :
    handleAuthChallenge md5 cfg px L v st f =
      (st, [sendMessageWithAuth md5 cfg st rl nc px f]) := by
  unfold handleAuthChallenge
  rw [hfind]
  simp only [hrl, hnc, hreg, hmsg, if_true, Bool.false_eq_true, if_false]

theorem handleAuthChallenge_invite (md5 : String → String) (cfg : Config) (px : Bool)
    (L : List String) (v : String) (st : ClientState) (f : Fresh) (hdr rl nc : String)
    (hfind : findHeaderOpt (if px then "proxy-authenticate:" else "www-authenticate:") L = some hdr)
    (hrl : matchQuotedAttr "realm" hdr = some rl)
    (hnc : matchQuotedAttr "nonce" hdr = some nc)
    (hreg : jsIncludes v "register" = false)
    (hmsg : jsIncludes v "message" = false)
    (hinv : jsIncludes v "invite" = true) :
    handleAuthChallenge md5 cfg px L v st f =
      ((sendInviteWithAuth md5 cfg { st with inviteCseq := st.inviteCseq + 1 } rl nc px f).1,
       [(sendInviteWithAuth md5 cfg { st with inviteCseq := st.inviteCseq + 1 } rl nc px f).2]) := by
  unfold handleAuthChallenge
  rw [hfind]
  simp only [hrl, hnc, hreg, hmsg, hinv, if_true, Bool.false_eq_true, if_false]

theorem handleAuthChallenge_fail (md5 : String → String) (cfg : Config) (px : Bool)
    (L : List String) (v : String) (st : ClientState) (f : Fresh)
    (hbad : findHeaderOpt (if px then "proxy-authenticate:" else "www-authenticate:") L = none ∨
      ∃ hdr, findHeaderOpt (if px then "proxy-authenticate:" else "www-authenticate:") L = some hdr ∧
        (matchQuotedAttr "realm" hdr = none ∨ matchQuotedAttr "nonce" hdr = none)) :
    handleAuthChallenge md5 cfg px L v st f = (st, []) := by
  unfold handleAuthChallenge
  rcases hbad with hnone | ⟨hdr, hsome, hattr⟩
  · rw [hnone]
  · rw [hsome]
    rcases hattr with hr | hn
    · rcases hv : matchQuotedAttr "nonce" hdr with _ | x <;> simp only [hr, hv]
    · rcases hv : matchQuotedAttr "realm" hdr with _ | x <;> simp only [hv, hn]

theorem handleResponse_2xx_invite (md5 : String → String) (cfg : Config) (st : ClientState)
    (r : Response) (f : Fresh)
    (h2 : 200 ≤ r.statusCode) (h3 : r.statusCode < 300)
    (hr : jsIncludes (cseqValOf r.messageLines) "register" = false)
    (hm : jsIncludes (cseqValOf r.messageLines) "message" = false)
    (hi : jsIncludes (cseqValOf r.messageLines) "invite" = true) :
    handleResponse md5 cfg st r f =
      ⟨st, [(sendAckForInvite cfg st).1], (sendAckForInvite cfg st).2⟩ := by
  unfold handleResponse
  rw [if_neg (by omega : ¬ (r.statusCode = 401 ∨ r.statusCode = 407)), if_pos ⟨h2, h3⟩]
  simp only [hr, hm, hi, if_true, Bool.false_eq_true, if_false]

theorem handleResponse_2xx_nomatch (md5 : String → String) (cfg : Config) (st : ClientState)
    (r : Response) (f : Fresh)
    (h2 : 200 ≤ r.statusCode) (h3 : r.statusCode < 300)
    (hr : jsIncludes (cseqValOf r.messageLines) "register" = false)
    (hm : jsIncludes (cseqValOf r.messageLines) "message" = false)
    (hi : jsIncludes (cseqValOf r.messageLines) "invite" = false) :
    handleResponse md5 cfg st r f = ⟨st, [], 0⟩ := by
  unfold handleResponse
  rw [if_neg (by omega : ¬ (r.statusCode = 401 ∨ r.statusCode = 407)), if_pos ⟨h2, h3⟩]
  simp only [hr, hm, hi, Bool.false_eq_true, if_false]

theorem regBranchTrace_eq (cfg : Config) (st : ClientState) (fs : List Fresh) :
    regBranchTrace cfg st fs = fs.map mkBranch := by
  induction fs generalizing st with
  | nil => rfl
  | cons f fs ih =>
    simp only [regBranchTrace, List.map, ih]
    rfl

/-- C1 (code bug): the MESSAGE build with body `"é"` renders
`Content-Length: 1` — the UTF-16 code-unit count — while the body that is
appended verbatim occupies 2 bytes in the UTF-8 encoding the transport
sends; for ACK the rendered Content-Length is 0 even with a body. -/
theorem c1_content_length_bug :
    ("Content-Length: 1" ∈ buildMsgLines c1spec) ∧
    "é" ∈ buildMsgLines c1spec ∧
    utf8Len "é" = 2 ∧ utf16Len "é" = 1 ∧
    ("Content-Length: 0" ∈ buildMsgLines c1ack) ∧ "xyz" ∈ buildMsgLines c1ack := by decide

/-- C9 (code bug): after one successful `close()`, a second `close()`
reaches `socket.close()` on a socket that is no longer running, which
raises `ERR_SOCKET_DGRAM_NOT_RUNNING` instead of being a no-op. -/
theorem c9_double_close_throws :
    clientClose c9start = Except.ok c9closed ∧
    clientClose c9closed = Except.error "ERR_SOCKET_DGRAM_NOT_RUNNING" := ⟨rfl, rfl⟩

/-- C2 counterexample: for a concrete well-formed inbound request the reply
contains no `Server` header line at all, and for an untagged To line the
copied To line is not verbatim (a tag is appended). -/
theorem c2_counterexample :
    ((build200OkLines c2req 5).all (fun l => !(lowerStartsWith l "server:"))) = true ∧
    (build200OkLines c2reqNoTag 5).get? 2 = some "To: <sip:alice@ex.com;tag=5>" ∧
    findHeader "to:" c2reqNoTag = "To: <sip:alice@ex.com>" := by decide

/-- C3 counterexample: in the MESSAGE family the initial send has CSeq 1
and the first authenticated retry CSeq 2, but the retry after a second 401
again has CSeq 2 — not strictly greater than the previous send. -/
theorem c3_counterexample :
    (sendMessage cfg0 st0 f1).lines.contains "CSeq: 1 MESSAGE" = true ∧
    ((handleResponse idmd5 cfg0 st0 c3chal f2).packets.map
      (fun p => p.lines.contains "CSeq: 2 MESSAGE")) = [true] ∧
    ((handleResponse idmd5 cfg0 (handleResponse idmd5 cfg0 st0 c3chal f2).state c3chal2 f3).packets.map
      (fun p => p.lines.contains "CSeq: 2 MESSAGE")) = [true] ∧
    ((handleResponse idmd5 cfg0 (handleResponse idmd5 cfg0 st0 c3chal f2).state c3chal2 f3).packets.map
      (fun p => p.lines.contains "CSeq: 3 MESSAGE")) = [false] := by decide

/-- C4 counterexample: two consecutive REGISTER sends whose random draws
coincide carry the same `branch` in their Via lines. -/
theorem c4_counterexample :
    (sendRegister cfg0 st0 f5).1.regBranch = "z9hG4bK-7" ∧
    (sendRegister cfg0 (sendRegister cfg0 st0 f5).1 f5).1.regBranch = "z9hG4bK-7" ∧
    (sendRegister cfg0 st0 f5).2.lines.contains
      "Via: SIP/2.0/UDP 10.0.0.1:5062;branch=z9hG4bK-7;rport" = true ∧
    (sendRegister cfg0 (sendRegister cfg0 st0 f5).1 f5).2.lines.contains
      "Via: SIP/2.0/UDP 10.0.0.1:5062;branch=z9hG4bK-7;rport" = true := by decide

/-- C4 (amended): each REGISTER-family send stores the branch generated
from its own random draw, and the branches of N consecutive sends are
pairwise distinct whenever the N draws are pairwise distinct. -/
theorem c4_branch_distinct (cfg : Config) (st : ClientState) (fs : List Fresh)
    (h : (fs.map (fun f => f.randBranch)).Pairwise (fun a b => a ≠ b)) :
    regBranchTrace cfg st fs = fs.map mkBranch ∧
    (regBranchTrace cfg st fs).Pairwise (fun a b => a ≠ b) := by
  refine ⟨regBranchTrace_eq cfg st fs, ?_⟩
  rw [regBranchTrace_eq, List.pairwise_map]
  rw [List.pairwise_map] at h
  exact h.imp (fun hne heq => hne (mkBranch_inj heq))

theorem c4_branch_distinct_witness :
    regBranchTrace cfg0 st0 [f1, f2] = [f1, f2].map mkBranch ∧
    (regBranchTrace cfg0 st0 [f1, f2]).Pairwise (fun a b => a ≠ b) :=
  c4_branch_distinct cfg0 st0 [f1, f2] (by decide)

/-- C5 counterexample: a REGISTER 401 retry whose fresh random draw repeats
the challenged branch's value re-sends with the identical branch. -/
theorem c5_counterexample :
    c5st.regBranch = "z9hG4bK-5" ∧
    ((handleResponse idmd5 cfg0 c5st c5resp c5f).packets.map (fun p => p.lines.get? 1)) =
      [some "Via: SIP/2.0/UDP 10.0.0.1:5062;branch=z9hG4bK-5;rport"] := by decide

/-- C10 counterexample: a 2xx whose CSeq method token is `REINVITE` — none
of REGISTER/MESSAGE/INVITE — still triggers the INVITE match by substring,
sending an ACK packet and closing the client in send mode. -/
theorem c10_counterexample :
    (handleResponse idmd5 cfg0 st0 c10resp f2).packets.length = 1 ∧
    (handleResponse idmd5 cfg0 st0 c10resp f2).closeCalls = 1 ∧
    cseqValOf c10resp.messageLines = "2 reinvite" := by decide

/-- C2 (amended): every inbound request gets exactly one reply, sent to the
observed sender address, consisting of the status line, the inbound Via, To,
From, Call-ID and CSeq lines and `Content-Length: 0` — with no Server
header; the To line is verbatim exactly when it already carries a tag,
otherwise a random tag is inserted before its closing `>`. -/
theorem c2_reply_shape (m : String) (lines : List String) (rinfo : RInfo) (rt : Nat) :
    handleRequest m lines rinfo rt =
      [⟨build200OkLines lines rt, rinfo.address, rinfo.port⟩] ∧
    build200OkLines lines rt =
      ["SIP/2.0 200 OK", findHeader "via:" lines,
       (if hasTagRegex (findHeader "to:" lines) then findHeader "to:" lines
        else addTagToLine (findHeader "to:" lines) rt),
       findHeader "from:" lines, findHeader "call-id:" lines, findHeader "cseq:" lines,
       "Content-Length: 0", "", ""] ∧
    (hasTagRegex (findHeader "to:" lines) = true →
      build200OkLines lines rt =
        ["SIP/2.0 200 OK", findHeader "via:" lines, findHeader "to:" lines,
         findHeader "from:" lines, findHeader "call-id:" lines, findHeader "cseq:" lines,
         "Content-Length: 0", "", ""]) := by
  refine ⟨?_, rfl, ?_⟩
  · unfold handleRequest
    split_ifs <;> rfl
  · intro h
    simp only [build200OkLines, h, if_true]

theorem c2_reply_shape_witness :
    handleRequest "MESSAGE" c2req ⟨"9.8.7.6", 5070⟩ 5 =
      [⟨build200OkLines c2req 5, "9.8.7.6", 5070⟩] ∧
    build200OkLines c2req 5 =
      ["SIP/2.0 200 OK", findHeader "via:" c2req, findHeader "to:" c2req,
       findHeader "from:" c2req, findHeader "call-id:" c2req, findHeader "cseq:" c2req,
       "Content-Length: 0", "", ""] :=
  ⟨(c2_reply_shape "MESSAGE" c2req ⟨"9.8.7.6", 5070⟩ 5).1,
   (c2_reply_shape "MESSAGE" c2req ⟨"9.8.7.6", 5070⟩ 5).2.2 (by decide)⟩

/-- C3 (amended): REGISTER sends (initial and keep-alive) and REGISTER and
INVITE authenticated retries strictly increase the family CSeq carried in
the sent request; the MESSAGE family sends CSeq 1 initially and every
authenticated retry — not only the first — re-sends the hard-coded CSeq 2. -/
theorem c3_cseq_amended (md5 : String → String) (cfg : Config) (st : ClientState) (f : Fresh)
    (L : List String) (v : String) (hdr rl nc : String) (px : Bool)
    (hfind : findHeaderOpt (if px then "proxy-authenticate:" else "www-authenticate:") L = some hdr)
    (hrl : matchQuotedAttr "realm" hdr = some rl)
    (hnc : matchQuotedAttr "nonce" hdr = some nc) :
    ((sendRegister cfg st f).1.regCseq = st.regCseq + 1 ∧
      ("CSeq: " ++ natStr (st.regCseq + 1) ++ " " ++ "REGISTER") ∈ (sendRegister cfg st f).2.lines) ∧
    (("CSeq: " ++ natStr 1 ++ " " ++ "MESSAGE") ∈ (sendMessage cfg st f).lines) ∧
    (jsIncludes v "register" = true →
      ∃ p, handleAuthChallenge md5 cfg px L v st f =
          ({ st with regCseq := st.regCseq + 1, regBranch := mkBranch f }, [p]) ∧
        ("CSeq: " ++ natStr (st.regCseq + 1) ++ " " ++ "REGISTER") ∈ p.lines) ∧
    (jsIncludes v "register" = false → jsIncludes v "message" = true →
      ∃ p, handleAuthChallenge md5 cfg px L v st f = (st, [p]) ∧
        ("CSeq: " ++ natStr 2 ++ " " ++ "MESSAGE") ∈ p.lines) ∧
    (jsIncludes v "register" = false → jsIncludes v "message" = false →
        jsIncludes v "invite" = true →
      ∃ p, handleAuthChallenge md5 cfg px L v st f =
          ({ st with inviteCseq := st.inviteCseq + 1, inviteBranch := some (mkBranch f) }, [p]) ∧
        ("CSeq: " ++ natStr (st.inviteCseq + 1) ++ " " ++ "INVITE") ∈ p.lines) := by
  refine ⟨⟨rfl, ?_⟩, ?_, ?_, ?_, ?_⟩
  · rw [sendRegister_lines]
    simp
  · rw [sendMessage_lines]
    simp
  · intro hreg
    refine ⟨(sendRegisterWithAuth md5 cfg { st with regCseq := st.regCseq + 1 } rl nc px f).2, ?_, ?_⟩
    · rw [handleAuthChallenge_register md5 cfg px L v st f hdr rl nc hfind hrl hnc hreg]
      rfl
    · rw [sendRegisterWithAuth_lines]
      simp
  · intro hreg hmsg
    refine ⟨sendMessageWithAuth md5 cfg st rl nc px f, ?_, ?_⟩
    · rw [handleAuthChallenge_message md5 cfg px L v st f hdr rl nc hfind hrl hnc hreg hmsg]
    · rw [sendMessageWithAuth_lines]
      simp
  · intro hreg hmsg hinv
    refine ⟨(sendInviteWithAuth md5 cfg { st with inviteCseq := st.inviteCseq + 1 } rl nc px f).2, ?_, ?_⟩
    · rw [handleAuthChallenge_invite md5 cfg px L v st f hdr rl nc hfind hrl hnc hreg hmsg hinv]
      rfl
    · rw [sendInviteWithAuth_lines]
      simp

theorem c3_cseq_amended_witness :
    ((sendRegister cfg0 st0 f3).1.regCseq = st0.regCseq + 1 ∧
      ("CSeq: " ++ natStr (st0.regCseq + 1) ++ " " ++ "REGISTER") ∈ (sendRegister cfg0 st0 f3).2.lines) ∧
    (∃ p, handleAuthChallenge idmd5 cfg0 false c3chal2.messageLines "2 message" st0 f3 = (st0, [p]) ∧
      ("CSeq: " ++ natStr 2 ++ " " ++ "MESSAGE") ∈ p.lines) := by
  have h := c3_cseq_amended idmd5 cfg0 st0 f3 c3chal2.messageLines "2 message"
    "WWW-Authenticate: Digest realm=\"r\", nonce=\"n\"" "r" "n" false
    (by decide) (by decide) (by decide)
  exact ⟨h.1, h.2.2.2.1 (by decide) (by decide)⟩

/-- C5 (amended): a REGISTER 401 with quoted realm and nonce triggers
exactly one re-sent REGISTER carrying an `Authorization` header and a CSeq
one greater than the challenged REGISTER's; its branch is freshly drawn and
differs from the challenged branch whenever the fresh draw differs. -/
theorem c5_register_retry (md5 : String → String) (cfg : Config) (st : ClientState)
    (r : Response) (f : Fresh) (hdr rl nc : String)
    (hs : r.statusCode = 401)
    (hfind : findHeaderOpt "www-authenticate:" r.messageLines = some hdr)
    (hrl : matchQuotedAttr "realm" hdr = some rl)
    (hnc : matchQuotedAttr "nonce" hdr = some nc)
    (hreg : jsIncludes (cseqValOf r.messageLines) "register" = true)
    (hbr : mkBranch f ≠ st.regBranch) :
    ∃ p, handleResponse md5 cfg st r f =
        ⟨{ st with regCseq := st.regCseq + 1, regBranch := mkBranch f }, [p], 0⟩ ∧
      p.lines.get? 0 = some ("REGISTER" ++ " sip:" ++ cfg.serverHost ++ " SIP/2.0") ∧
      buildDigestAuthHeader md5 "REGISTER" ("sip:" ++ cfg.serverHost)
        st.fromUser st.password rl nc false ∈ p.lines ∧
      ("CSeq: " ++ natStr (st.regCseq + 1) ++ " " ++ "REGISTER") ∈ p.lines ∧
      ("Via: SIP/2.0/" ++ "UDP" ++ " " ++ cfg.localIp ++ ":" ++ natStr st.localPort ++
        ";branch=" ++ mkBranch f ++ ";rport") ∈ p.lines ∧
      mkBranch f ≠ st.regBranch := by
  have hpx : (r.statusCode == 407) = false := by rw [hs]; rfl
  refine ⟨(sendRegisterWithAuth md5 cfg { st with regCseq := st.regCseq + 1 } rl nc false f).2,
    ?_, ?_, ?_, ?_, ?_, hbr⟩
  · rw [handleResponse_auth md5 cfg st r f (Or.inl hs), hpx,
      handleAuthChallenge_register md5 cfg false r.messageLines (cseqValOf r.messageLines)
        st f hdr rl nc hfind hrl hnc hreg]
    rfl
  · rw [sendRegisterWithAuth_lines]
    rfl
  · rw [sendRegisterWithAuth_lines]
    simp
  · rw [sendRegisterWithAuth_lines]
    simp
  · rw [sendRegisterWithAuth_lines]
    simp

theorem c5_register_retry_witness :
    ∃ p, handleResponse idmd5 cfg0 st0 c5resp f2 =
        ⟨{ st0 with regCseq := st0.regCseq + 1, regBranch := mkBranch f2 }, [p], 0⟩ ∧
      p.lines.get? 0 = some ("REGISTER" ++ " sip:" ++ cfg0.serverHost ++ " SIP/2.0") ∧
      buildDigestAuthHeader idmd5 "REGISTER" ("sip:" ++ cfg0.serverHost)
        st0.fromUser st0.password "r" "n" false ∈ p.lines ∧
      ("CSeq: " ++ natStr (st0.regCseq + 1) ++ " " ++ "REGISTER") ∈ p.lines ∧
      ("Via: SIP/2.0/" ++ "UDP" ++ " " ++ cfg0.localIp ++ ":" ++ natStr st0.localPort ++
        ";branch=" ++ mkBranch f2 ++ ";rport") ∈ p.lines ∧
      mkBranch f2 ≠ st0.regBranch :=
  c5_register_retry idmd5 cfg0 st0 c5resp f2
    "WWW-Authenticate: Digest realm=\"r\", nonce=\"n\"" "r" "n"
    rfl (by decide) (by decide) (by decide) (by decide) (by decide)

/-- C6 (confirmed): a 2xx whose CSeq value matches INVITE (and neither
REGISTER nor MESSAGE) makes the client send exactly one ACK, whose Call-ID
line, From line (hence From-tag) and CSeq number are those of the pending
INVITE; the client state is unchanged. -/
theorem c6_invite_ack (md5 : String → String) (cfg : Config) (st : ClientState)
    (f1 f2 : Fresh) (r : Response)
    (h2 : 200 ≤ r.statusCode) (h3 : r.statusCode < 300)
    (hr : jsIncludes (cseqValOf r.messageLines) "register" = false)
    (hm : jsIncludes (cseqValOf r.messageLines) "message" = false)
    (hi : jsIncludes (cseqValOf r.messageLines) "invite" = true) :
    handleResponse md5 cfg (sendInvite cfg st f1).1 r f2 =
      ⟨(sendInvite cfg st f1).1,
       [(sendAckForInvite cfg (sendInvite cfg st f1).1).1],
       (sendAckForInvite cfg (sendInvite cfg st f1).1).2⟩ ∧
    (sendAckForInvite cfg (sendInvite cfg st f1).1).1.lines.get? 0 =
      some ("ACK" ++ " sip:" ++ st.toUser ++ "@" ++ cfg.serverHost ++ " SIP/2.0") ∧
    ("Call-ID: " ++ mkCallId "invite" f1) ∈ (sendAckForInvite cfg (sendInvite cfg st f1).1).1.lines ∧
    ("Call-ID: " ++ mkCallId "invite" f1) ∈ (sendInvite cfg st f1).2.lines ∧
    ("From: <sip:" ++ st.fromUser ++ "@" ++ cfg.serverHost ++ ">;tag=" ++ mkTag f1)
      ∈ (sendAckForInvite cfg (sendInvite cfg st f1).1).1.lines ∧
    ("From: <sip:" ++ st.fromUser ++ "@" ++ cfg.serverHost ++ ">;tag=" ++ mkTag f1)
      ∈ (sendInvite cfg st f1).2.lines ∧
    ("CSeq: " ++ natStr st.inviteCseq ++ " ACK")
      ∈ (sendAckForInvite cfg (sendInvite cfg st f1).1).1.lines ∧
    ("CSeq: " ++ natStr st.inviteCseq ++ " " ++ "INVITE") ∈ (sendInvite cfg st f1).2.lines := by
  have hack : (sendAckForInvite cfg (sendInvite cfg st f1).1).1.lines =
      ["ACK" ++ " sip:" ++ st.toUser ++ "@" ++ cfg.serverHost ++ " SIP/2.0",
       "Via: SIP/2.0/" ++ "UDP" ++ " " ++ cfg.localIp ++ ":" ++ natStr st.localPort ++
         ";branch=" ++ (mkBranch f1 ++ "-ack") ++ ";rport",
       "Max-Forwards: 70",
       "To: <sip:" ++ st.toUser ++ "@" ++ cfg.serverHost ++ ">",
       "From: <sip:" ++ st.fromUser ++ "@" ++ cfg.serverHost ++ ">;tag=" ++ mkTag f1,
       "Call-ID: " ++ mkCallId "invite" f1,
       "CSeq: " ++ natStr st.inviteCseq ++ " ACK",
       "Content-Length: 0",
       "", ""] := rfl
  refine ⟨handleResponse_2xx_invite md5 cfg (sendInvite cfg st f1).1 r f2 h2 h3 hr hm hi,
    ?_, ?_, ?_, ?_, ?_, ?_, ?_⟩
  · rw [hack]
    rfl
  · rw [hack]
    simp
  · rw [sendInvite_lines]
    simp
  · rw [hack]
    simp
  · rw [sendInvite_lines]
    simp
  · rw [hack]
    simp
  · rw [sendInvite_lines]
    simp

theorem c6_invite_ack_witness :
    handleResponse idmd5 cfg0 (sendInvite cfg0 st0 f1).1 c6resp f2 =
      ⟨(sendInvite cfg0 st0 f1).1,
       [(sendAckForInvite cfg0 (sendInvite cfg0 st0 f1).1).1],
       (sendAckForInvite cfg0 (sendInvite cfg0 st0 f1).1).2⟩ ∧
    ("Call-ID: " ++ mkCallId "invite" f1)
      ∈ (sendAckForInvite cfg0 (sendInvite cfg0 st0 f1).1).1.lines ∧
    ("CSeq: " ++ natStr st0.inviteCseq ++ " ACK")
      ∈ (sendAckForInvite cfg0 (sendInvite cfg0 st0 f1).1).1.lines := by
  have h := c6_invite_ack idmd5 cfg0 st0 f1 f2 c6resp
    (by decide) (by decide) (by decide) (by decide) (by decide)
  exact ⟨h.1, h.2.2.1, h.2.2.2.2.2.2.1⟩

/-- C7 (confirmed): the digest computation is the MD5 chain
`MD5(MD5(user:realm:pass):nonce:MD5(METHOD:uri))` rendered in an
`Authorization` (server challenge) or `Proxy-Authorization` (proxy
challenge) header, and the retried requests use `sip:domain` as the uri for
REGISTER and `sip:toUser@domain` for MESSAGE and INVITE. -/
theorem c7_digest (md5 : String → String) (m uri u pw rl nc : String) (px : Bool)
    (cfg : Config) (st : ClientState) (f : Fresh) :
    buildDigestAuthHeader md5 m uri u pw rl nc px =
      (if px then "Proxy-Authorization" else "Authorization") ++ ": Digest username=\"" ++ u ++
        "\", realm=\"" ++ rl ++ "\", nonce=\"" ++ nc ++ "\", uri=\"" ++ uri ++
        "\", response=\"" ++
        md5 (md5 (u ++ ":" ++ rl ++ ":" ++ pw) ++ ":" ++ nc ++ ":" ++
          md5 (jsUpper m ++ ":" ++ uri)) ++ "\"" ∧
    buildDigestAuthHeader md5 "REGISTER" ("sip:" ++ cfg.serverHost)
        st.fromUser st.password rl nc px ∈ (sendRegisterWithAuth md5 cfg st rl nc px f).2.lines ∧
    buildDigestAuthHeader md5 "MESSAGE" ("sip:" ++ st.toUser ++ "@" ++ cfg.serverHost)
        st.fromUser st.password rl nc px ∈ (sendMessageWithAuth md5 cfg st rl nc px f).lines ∧
    buildDigestAuthHeader md5 "INVITE" ("sip:" ++ st.toUser ++ "@" ++ cfg.serverHost)
        st.fromUser st.password rl nc px ∈ (sendInviteWithAuth md5 cfg st rl nc px f).2.lines := by
  refine ⟨rfl, ?_, ?_, ?_⟩
  · rw [sendRegisterWithAuth_lines]
    simp
  · rw [sendMessageWithAuth_lines]
    simp
  · rw [sendInviteWithAuth_lines]
    simp

/-- C8 (confirmed): on a 401/407 whose expected challenge header is missing,
or whose quoted realm or nonce cannot be extracted, the dispatcher sends no
packet, never calls `close()`, and leaves the whole client state unchanged. -/
theorem c8_malformed_challenge (md5 : String → String) (cfg : Config) (st : ClientState)
    (r : Response) (f : Fresh)
    (hs : r.statusCode = 401 ∨ r.statusCode = 407)
    (hbad : findHeaderOpt (if r.statusCode == 407 then "proxy-authenticate:" else "www-authenticate:")
        r.messageLines = none ∨
      ∃ hdr, findHeaderOpt (if r.statusCode == 407 then "proxy-authenticate:" else "www-authenticate:")
          r.messageLines = some hdr ∧
        (matchQuotedAttr "realm" hdr = none ∨ matchQuotedAttr "nonce" hdr = none)) :
    handleResponse md5 cfg st r f = ⟨st, [], 0⟩ := by
  rw [handleResponse_auth md5 cfg st r f hs,
    handleAuthChallenge_fail md5 cfg (r.statusCode == 407) r.messageLines
      (cseqValOf r.messageLines) st f hbad]

theorem c8_malformed_challenge_witness :
    handleResponse idmd5 cfg0 st0 c8resp f2 = ⟨st0, [], 0⟩ ∧
    handleResponse idmd5 cfg0 st0 c8respMalformed f2 = ⟨st0, [], 0⟩ :=
  ⟨c8_malformed_challenge idmd5 cfg0 st0 c8resp f2 (Or.inl rfl) (Or.inl (by decide)),
   c8_malformed_challenge idmd5 cfg0 st0 c8respMalformed f2 (Or.inr rfl)
     (Or.inr ⟨"Proxy-Authenticate: Digest realm=, nonce=\"n\"", by decide, Or.inl (by decide)⟩)⟩

/-- C10 (amended): a 2xx whose CSeq value contains none of the substrings
`register`, `message`, `invite` (including responses with no CSeq header)
sends no packet, never calls `close()` even in send mode, and leaves the
whole client state unchanged. -/
theorem c10_frame (md5 : String → String) (cfg : Config) (st : ClientState)
    (r : Response) (f : Fresh)
    (h2 : 200 ≤ r.statusCode) (h3 : r.statusCode < 300)
    (hr : jsIncludes (cseqValOf r.messageLines) "register" = false)
    (hm : jsIncludes (cseqValOf r.messageLines) "message" = false)
    (hi : jsIncludes (cseqValOf r.messageLines) "invite" = false) :
    handleResponse md5 cfg st r f = ⟨st, [], 0⟩ :=
  handleResponse_2xx_nomatch md5 cfg st r f h2 h3 hr hm hi

theorem c10_frame_witness :
    handleResponse idmd5 cfg0 st0 c10ok f2 = ⟨st0, [], 0⟩ :=
  c10_frame idmd5 cfg0 st0 c10ok f2 (by decide) (by decide) (by decide) (by decide) (by decide)

end SafeSip
